import Mathlib

/-!
Verification of the GetItDone task/goal tracking API (`src/api/goals.py`,
`src/api/tasks.py`, `src/api/users.py`, `src/api/server.py`, `src/database.py`).

The handlers are thin wrappers around single SQL statements executed against
tables `goals` and `tasks`.  We embed the tables as Lean lists of row
structures and each SQL statement as the corresponding pure list operation:
`WHERE` becomes `List.filter`, `ORDER BY` becomes `List.mergeSort` on the sort
key (with SQL null ordering: `NULLS LAST` for ascending, `NULLS FIRST` for
descending, i.e. null compares as plus infinity), `OFFSET`/`LIMIT` become
`List.drop`/`List.take`, and `LEFT OUTER JOIN` becomes an explicit join on
lists.  Timestamps and dates are abstracted as natural numbers (days since a
Monday epoch, so that `d % 7` is the weekday with Monday = 0, matching
Postgres `date_trunc('week', ...)` which truncates to Monday).
-/

namespace GetItDone

/-- A row of the `goals` table:
`goals(id, user, goal_name, complete, date_created, date_completed)`. -/
structure GoalRow where
  id : Nat
  user : Nat
  goal_name : String
  complete : Bool
  date_created : Nat
  date_completed : Option Nat
deriving Repr, DecidableEq

/-- A row of the `tasks` table:
`tasks(id, user, goal, task_name, description, complete, date_created,
date_completed, time_taken)`.  `goal` is a nullable reference to `goals.id`. -/
structure TaskRow where
  id : Nat
  user : Nat
  goal : Option Nat
  task_name : String
  description : Option String
  complete : Bool
  date_created : Nat
  date_completed : Option Nat
  time_taken : Option Int
deriving Repr, DecidableEq

/-! ## Generic SQL building blocks -/

/-- Python truthiness of an optional integer parameter (`if goal_id:` /
`and minutes_taken`): absent and zero are falsy. -/
def truthyOptInt : Option Int → Bool
  | none => false
  | some n => n != 0

/-- Python truthiness of an optional string parameter (`and date_completed`):
absent and empty are falsy. -/
def truthyOptStr : Option String → Bool
  | none => false
  | some s => s != ""

/-- Boolean infix test over character lists: does `p` occur as a contiguous
substring of `s`?  Used to embed SQL `ILIKE '%pat%'`. -/
def isInfixB (p : List Char) : List Char → Bool
  | [] => p.isEmpty
  | c :: t => p.isPrefixOf (c :: t) || isInfixB p t

/-- Embedding of `column ILIKE '%pat%'`: case-insensitive substring match. -/
def ilike (pat s : String) : Bool :=
  isInfixB (pat.data.map Char.toLower) (s.data.map Char.toLower)

/-- Comparison on an optional sort key where a null key compares as plus
infinity.  Under ascending sort this is Postgres `NULLS LAST`; reversing the
arguments (descending sort) yields `NULLS FIRST`. -/
def optLe : Option Nat → Option Nat → Bool
  | _, none => true
  | none, some _ => false
  | some a, some b => a ≤ b

/-- The `ORDER BY` comparison for sort key `k` in direction `desc`. -/
def keyLE (k : α → Option Nat) (desc : Bool) (a b : α) : Bool :=
  if desc then optLe (k b) (k a) else optLe (k a) (k b)

/-- Insert into a list sorted by the Boolean comparison `le`. -/
def insertB (le : α → α → Bool) (a : α) : List α → List α
  | [] => [a]
  | b :: t => if le a b then a :: b :: t else b :: insertB le a t

/-- Insertion sort by a Boolean comparison.  This embeds SQL `ORDER BY`
(which fixes the relative order of rows only up to the comparison, so any
sort consistent with `le` is a faithful model). -/
def sortB (le : α → α → Bool) : List α → List α
  | [] => []
  | a :: t => insertB le a (sortB le t)

/-! ## Shared search / pagination core

Both `search_goals` (`goals.py` lines 161–234) and `search_tasks`
(`tasks.py` lines 273–361) run the same pagination logic over the sorted,
filtered row list:  reject a negative page, fetch with
`OFFSET search_page*5  LIMIT 6`, set `next_page = search_page+1` when the
fetch returned at least 6 rows (else `-1`), emit the first 5 fetched rows,
error when the page is empty and positive, and report
`start_entry = search_page*5`, `end_entry = start_entry + count - 1`. -/

structure SearchResult (β : Type) where
  next_page : Int
  start_entry : Int
  end_entry : Int
  res : List β
deriving Repr, DecidableEq

instance {ε β : Type} [DecidableEq ε] [DecidableEq β] : DecidableEq (Except ε β) :=
  fun a b =>
    match a, b with
    | .ok x, .ok y =>
        if h : x = y then isTrue (by rw [h])
        else isFalse (fun hc => by cases hc; exact h rfl)
    | .error x, .error y =>
        if h : x = y then isTrue (by rw [h])
        else isFalse (fun hc => by cases hc; exact h rfl)
    | .ok _, .error _ => isFalse (fun hc => by cases hc)
    | .error _, .ok _ => isFalse (fun hc => by cases hc)

/-- The `OFFSET page*5 LIMIT 6` fetch over the sorted matching rows. -/
def fetchRows (sorted : List α) (page : Nat) : List α :=
  (sorted.drop (page * 5)).take 6

/-- The handler body shared by both search endpoints, applied to the sorted
list of rows matching the `WHERE` clause. -/
def paginateResult (sorted : List α) (page : Int) : Except String (SearchResult α) :=
  if page < 0 then .error "Page out of bounds"
  else
    let result := fetchRows sorted page.toNat
    let next_page : Int := if 6 ≤ result.length then page + 1 else -1
    let res := result.take 5
    if res.length = 0 ∧ 0 < page then .error "Page out of bounds"
    else .ok ⟨next_page, page * 5, page * 5 + res.length - 1, res⟩

/-! ## Goal search (`goals.py`, `search_goals`) -/

/-- `search_sort_options` from `goals.py` / `tasks.py`. -/
inductive search_sort_options
  | date_created
  | date_completed
deriving Repr, DecidableEq

/-- `complete_options` from `goals.py` / `tasks.py`. -/
inductive complete_options
  | incomplete
  | complete
  | both
deriving Repr, DecidableEq

/-- `search_sort_order` from `goals.py` / `tasks.py`. -/
inductive search_sort_order
  | asc
  | desc
deriving Repr, DecidableEq

/-- Sorting by `date_completed` overwrites the caller's completion filter with
`complete` (`goals.py` line 166, `tasks.py` line 278). -/
def effectiveOpt (sc : search_sort_options) (copt : complete_options) : complete_options :=
  if sc = .date_completed then .complete else copt

/-- The completion-status conjunct of the `WHERE` clause. -/
def completeCond (copt : complete_options) (complete : Bool) : Bool :=
  match copt with
  | .complete => complete
  | .incomplete => !complete
  | .both => true

/-- The `WHERE` clause of `search_goals`: name `ILIKE`, owner match, and the
(possibly narrowed) completion filter. -/
def goalPred (u : Nat) (goal_name : String) (copt : complete_options) (g : GoalRow) : Bool :=
  ilike goal_name g.goal_name && g.user == u && completeCond copt g.complete

/-- The `ORDER BY` key of `search_goals`: the goal's own timestamp column. -/
def goalKey : search_sort_options → GoalRow → Option Nat
  | .date_created, g => some g.date_created
  | .date_completed, g => g.date_completed

/-- Rows of `goals` matching the `WHERE` clause of `search_goals`. -/
def goalsMatched (table : List GoalRow) (u : Nat) (goal_name : String)
    (copt : complete_options) (sc : search_sort_options) : List GoalRow :=
  table.filter (goalPred u goal_name (effectiveOpt sc copt))

/-- The matching rows in `ORDER BY` order. -/
def goalsSorted (table : List GoalRow) (u : Nat) (goal_name : String)
    (copt : complete_options) (sc : search_sort_options) (so : search_sort_order) :
    List GoalRow :=
  sortB (keyLE (goalKey sc) (so = .desc)) (goalsMatched table u goal_name copt sc)

/-- `search_goals` (`goals.py` lines 130–234). -/
def search_goals (table : List GoalRow) (u : Nat) (goal_name : String)
    (copt : complete_options) (search_page : Int) (sc : search_sort_options)
    (so : search_sort_order) : Except String (SearchResult GoalRow) :=
  paginateResult (goalsSorted table u goal_name copt sc so) search_page

/-! ## Task search (`tasks.py`, `search_tasks`) -/

/-- One row of `tasks LEFT OUTER JOIN goals ON goals.id = tasks.goal`
(`tasks.py` line 302). -/
structure TaskJoined where
  t : TaskRow
  g : Option GoalRow
deriving Repr, DecidableEq

/-- The left outer join of the two tables: each task row paired with every
matching goal row, or with `none` when no goal matches. -/
def outerJoin (ts : List TaskRow) (gs : List GoalRow) : List TaskJoined :=
  ts.flatMap (fun t =>
    match gs.filter (fun g => some g.id == t.goal) with
    | [] => [⟨t, none⟩]
    | m => m.map (fun g => ⟨t, some g⟩))

/-- The `WHERE` clause of `search_tasks`: name `ILIKE`, owner match, the
(possibly narrowed) completion filter, and — only when `goal_id` is truthy,
`tasks.py` line 299 — the goal match. -/
def taskPred (u : Nat) (task_name : String) (copt : complete_options)
    (goal_id : Option Int) (j : TaskJoined) : Bool :=
  ilike task_name j.t.task_name && j.t.user == u && completeCond copt j.t.complete &&
    (!truthyOptInt goal_id || (j.t.goal.map (Int.ofNat) == goal_id))

/-- The `ORDER BY` key of `search_tasks`.  The source orders by
`db.goals.c.date_created` / `db.goals.c.date_completed` (`tasks.py` lines
277 and 280) — the joined goal's columns, not the task's own — so the key is
read from the goal side of the join and is null for tasks without a goal. -/
def taskKey : search_sort_options → TaskJoined → Option Nat
  | .date_created, j => j.g.map (fun g => g.date_created)
  | .date_completed, j => j.g.bind (fun g => g.date_completed)

/-- Joined rows matching the `WHERE` clause of `search_tasks`. -/
def tasksMatched (ts : List TaskRow) (gs : List GoalRow) (u : Nat)
    (task_name : String) (copt : complete_options) (goal_id : Option Int)
    (sc : search_sort_options) : List TaskJoined :=
  (outerJoin ts gs).filter (taskPred u task_name (effectiveOpt sc copt) goal_id)

/-- The matching joined rows in `ORDER BY` order. -/
def tasksSorted (ts : List TaskRow) (gs : List GoalRow) (u : Nat)
    (task_name : String) (copt : complete_options) (goal_id : Option Int)
    (sc : search_sort_options) (so : search_sort_order) : List TaskJoined :=
  sortB (keyLE (taskKey sc) (so = .desc)) (tasksMatched ts gs u task_name copt goal_id sc)

/-- `search_tasks` (`tasks.py` lines 240–361). -/
def search_tasks (ts : List TaskRow) (gs : List GoalRow) (u : Nat)
    (task_name : String) (copt : complete_options) (goal_id : Option Int)
    (search_page : Int) (sc : search_sort_options) (so : search_sort_order) :
    Except String (SearchResult TaskJoined) :=
  paginateResult (tasksSorted ts gs u task_name copt goal_id sc so) search_page

/-! ## Task creation (`tasks.py`, `create_task`) -/

/-- Model of `datetime.strptime(date, '%Y-%m-%d')` (library call used by
`validate_date`): a date parses when it is three dash-separated decimal
fields, four-digit year, month 1–12, day 1–31, and is mapped to an
order-preserving numeric code. -/
def parseDate (s : String) : Option Nat :=
  match s.splitOn "-" with
  | [y, m, d] =>
    match y.toNat?, m.toNat?, d.toNat? with
    | some yv, some mv, some dv =>
        if y.length = 4 && 1 ≤ mv && mv ≤ 12 && 1 ≤ dv && dv ≤ 31 then
          some (yv * 10000 + mv * 100 + dv)
        else none
    | _, _, _ => none
  | _ => none

/-- `validate_date` (`tasks.py` lines 16–21). -/
def validate_date (s : String) : Bool := (parseDate s).isSome

/-- SQL equality on a nullable column: a null operand never compares equal
(this is the `date_completed = :date_completed` conjunct of the dedup check,
which can never match when the parameter is null). -/
def sqlEqOpt (a b : Option Nat) : Bool :=
  match a, b with
  | some x, some y => x == y
  | _, _ => false

/-- `create_task` (`tasks.py` lines 24–96).  Returns the table after the
request together with the inserted row or the error message the endpoint
reports.  `newId` stands for the serial id and `now` for the `date_created`
column default assigned by the database. -/
def create_task (table : List TaskRow) (user_id : Nat) (task_name : String)
    (description : Option String) (goal_id : Option Nat) (complete : Bool)
    (date_completed : Option String) (minutes_taken : Option Int)
    (newId : Nat) (now : Nat) : List TaskRow × Except String TaskRow :=
  if !((complete && truthyOptInt minutes_taken && truthyOptStr date_completed) ||
       (!complete && !truthyOptInt minutes_taken && !truthyOptStr date_completed)) then
    (table, .error "Completed tasks require minutes_taken and date_completed")
  else if truthyOptStr date_completed && !validate_date (date_completed.getD "") then
    (table, .error "Date_completed invalid must be (YYYY-MM-DD)")
  else
    let dc : Option Nat := date_completed.bind parseDate
    if table.any (fun r =>
        r.user == user_id && r.task_name == task_name && sqlEqOpt r.date_completed dc) then
      (table, .error "Task Already Created")
    else
      let row : TaskRow :=
        ⟨newId, user_id, goal_id, task_name, description, complete, now, dc, minutes_taken⟩
      (table ++ [row], .ok row)

/-! ## Goal mutations (`goals.py`) -/

/-- The `WHERE "user" = :user AND goal_name = :goal_name` duplicate check of
`create_goal`. -/
def goalPairPred (user_id : Nat) (goal_name : String) (g : GoalRow) : Bool :=
  g.user == user_id && g.goal_name == goal_name

/-- `create_goal` (`goals.py` lines 15–50): insert `(user, goal_name)` only
when no row with the same pair exists, else report the 409 detail
`"Task Already Created"`.  `newId` stands for the serial id.
Modelled from the spec: the live schema is not in the repository
(`database.py` autoloads it), so the inserted row takes the column defaults
the spec states — completion flag false, no completion timestamp, creation
timestamp `now`. -/
def create_goal (table : List GoalRow) (user_id : Nat) (goal_name : String)
    (newId : Nat) (now : Nat) : List GoalRow × Except String Nat :=
  if table.any (goalPairPred user_id goal_name) then
    (table, .error "Task Already Created")
  else
    (table ++ [⟨newId, user_id, goal_name, false, now, none⟩], .ok newId)

/-- The `WHERE id = :id AND "user" = :user` row match shared by
`complete_goal` and `delete_goal`. -/
def goalIdPred (user_id goal_id : Nat) (g : GoalRow) : Bool :=
  g.id == goal_id && g.user == user_id

/-- `complete_goal` (`goals.py` lines 52–85): `UPDATE goals SET
complete = true, date_completed = now() WHERE id = :id AND "user" = :user`,
404 when no row matched. -/
def complete_goal (table : List GoalRow) (user_id goal_id : Nat) (now : Nat) :
    List GoalRow × Except String String :=
  let updated := table.map (fun g =>
    if goalIdPred user_id goal_id g then
      { g with complete := true, date_completed := some now }
    else g)
  match table.find? (goalIdPred user_id goal_id) with
  | none => (updated, .error "Goal Not Found")
  | some g => (updated, .ok g.goal_name)

/-- `delete_goal` (`goals.py` lines 87–116): `DELETE FROM goals WHERE
id = :id AND "user" = :user`, 404 when no row matched. -/
def delete_goal (table : List GoalRow) (user_id goal_id : Nat) :
    List GoalRow × Except String String :=
  match table.find? (goalIdPred user_id goal_id) with
  | none => (table, .error "Goal Not Found")
  | some g => (table.filter (fun r => !goalIdPred user_id goal_id r), .ok g.goal_name)

/-! ## Aggregate counts (`goals.py` `total_goals`, `tasks.py` `total_tasks`)

Both endpoints run one aggregate `SELECT` without `GROUP BY` over the user's
rows; such a query yields exactly one row, which the embedding reflects by
building the singleton list the `fetchall()` returns.  Percentages are
`ROUND(c * 100.0 / total, 2)` — numeric round-half-away-from-zero, which for
the non-negative values here is half-up; we carry them as integer hundredths
of a percent. -/

/-- `ROUND(c * 100.0 / total, 2)` in hundredths of a percent
(half-up on non-negative values). -/
def roundPct (c total : Nat) : Nat :=
  (2 * (c * 10000) + total) / (2 * total)

structure CountResult where
  complete_count : Nat
  incomplete_count : Nat
  total : Nat
  percent_complete : Option Nat
  percent_incomplete : Option Nat
deriving Repr, DecidableEq

/-- The single row produced by the aggregate `SELECT` of `total_goals` /
`total_tasks`, over the rows of the user (`rows`), given the completion flag
of each row. -/
def countAgg (flags : List Bool) : CountResult :=
  let c := (flags.filter (fun b => b)).length
  let ic := (flags.filter (fun b => !b)).length
  ⟨c, ic, c + ic,
    if flags.length = 0 then none else some (roundPct c flags.length),
    if flags.length = 0 then none else some (roundPct ic flags.length)⟩

/-- `total_goals` (`goals.py` lines 236–277). -/
def total_goals (table : List GoalRow) (user_id : Nat) : Except String CountResult :=
  let rows := table.filter (fun g => g.user == user_id)
  let entry := [countAgg (rows.map (fun g => g.complete))]
  match entry with
  | [] => .error "No Tasks For User Found"
  | agg :: _ => .ok agg

/-- `total_tasks` (`tasks.py` lines 365–405). -/
def total_tasks (table : List TaskRow) (user_id : Nat) : Except String CountResult :=
  let rows := table.filter (fun t => t.user == user_id)
  let entry := [countAgg (rows.map (fun t => t.complete))]
  match entry with
  | [] => .error "No Tasks For User Found"
  | agg :: _ => .ok agg

/-! ## Weekday report (`tasks.py`, `evaluate_days`)

The SQL generates the seven dates of the current calendar week
(`date_trunc('week', current_date)` is the week's Monday) and left-joins
completed tasks of the user on `to_char(t.date_completed, 'Day') =
to_char(week_dates.day, 'Day')` — the blank-padded weekday *name*, not the
date itself.  Dates are modelled as days since a Monday epoch, so the
weekday name of `d` is determined by `d % 7`. -/

/-- Postgres `to_char(date, 'Day')`: the weekday name blank-padded to nine
characters, for a day count since a Monday epoch. -/
def dayName (d : Nat) : String :=
  match d % 7 with
  | 0 => "Monday   "
  | 1 => "Tuesday  "
  | 2 => "Wednesday"
  | 3 => "Thursday "
  | 4 => "Friday   "
  | 5 => "Saturday "
  | _ => "Sunday   "

/-- The join condition of `evaluate_days` for the generated date `day`:
weekday-name match on the completion date (null never matches), completed,
owned by the user, and — only when a goal id was passed (`is not None`) —
belonging to that goal. -/
def dayJoinCond (user_id : Nat) (goal_id : Option Nat) (day : Nat) (t : TaskRow) : Bool :=
  (match t.date_completed with
   | some dc => dayName dc == dayName day
   | none => false) &&
  t.complete && t.user == user_id &&
  (match goal_id with
   | none => true
   | some g => t.goal == some g)

/-- `evaluate_days` (`tasks.py` lines 407–453): for each generated day of the
current week (starting at its Monday `weekStart`), the weekday name and the
count of joined task rows. -/
def evaluate_days (table : List TaskRow) (user_id : Nat) (goal_id : Option Nat)
    (weekStart : Nat) : List (String × Nat) :=
  ((List.range 7).map (fun i => weekStart + i)).map
    (fun day => (dayName day, (table.filter (dayJoinCond user_id goal_id day)).length))

/-! ## Routing (`server.py`)

`server.py` builds the FastAPI app and mounts exactly two routers:
`app.include_router(users.router)` and `app.include_router(tasks.router)`
(lines 29–30); `goals.router` is defined in `goals.py` but never imported or
included.  Each route is recorded with its method, full path, and whether its
router declares the API-key dependency.
Modelled from the spec: the API-key dependency itself (`auth.get_api_key`,
module `src/api/auth.py` absent from the sources) is the static-API-key check
the spec describes; it is recorded as a Boolean flag taken from each router's
`dependencies=[Depends(auth.get_api_key)]` declaration. -/

structure Route where
  method : String
  path : String
  requiresApiKey : Bool
deriving Repr, DecidableEq

/-- The routes of `users.router` (`users.py`, router has the API-key
dependency). -/
def usersRoutes : List Route :=
  [⟨"POST", "/users/add", true⟩,
   ⟨"GET", "/users/validate", true⟩,
   ⟨"DELETE", "/users/delete", true⟩]

/-- The routes of `goals.router` (`goals.py`, router has the API-key
dependency). -/
def goalsRoutes : List Route :=
  [⟨"POST", "/goals/add", true⟩,
   ⟨"PUT", "/goals/complete", true⟩,
   ⟨"DELETE", "/goals/delete", true⟩,
   ⟨"GET", "/goals/search/", true⟩,
   ⟨"GET", "/goals/count", true⟩,
   ⟨"GET", "/goals/progress", true⟩]

/-- The routes of `tasks.router` (`tasks.py`, router has the API-key
dependency). -/
def tasksRoutes : List Route :=
  [⟨"POST", "/tasks/add", true⟩,
   ⟨"PUT", "/tasks/complete", true⟩,
   ⟨"PUT", "/tasks/set/goal", true⟩,
   ⟨"DELETE", "/tasks/delete", true⟩,
   ⟨"GET", "/tasks/search/", true⟩,
   ⟨"GET", "/tasks/count", true⟩,
   ⟨"GET", "/tasks/days", true⟩]

/-- The routes the application serves: only `users.router` and
`tasks.router` are included (`server.py` lines 29–30), plus the root route
defined directly on the app (no API-key dependency). -/
def appRoutes : List Route :=
  usersRoutes ++ tasksRoutes ++ [⟨"GET", "/", false⟩]

/-- Whether the app dispatches a request to a handler. -/
def dispatched (method path : String) : Bool :=
  appRoutes.any (fun r => r.method == method && r.path == path)

/-! ## Helper lemmas -/

theorem mem_insertB {le : α → α → Bool} {a x : α} {l : List α} :
    x ∈ insertB le a l ↔ x = a ∨ x ∈ l := by
  induction l with
  | nil => simp [insertB]
  | cons b t ih =>
    simp only [insertB]
    split
    · simp
    · simp only [List.mem_cons, ih]
      tauto

theorem mem_sortB {le : α → α → Bool} {x : α} {l : List α} :
    x ∈ sortB le l ↔ x ∈ l := by
  induction l with
  | nil => simp [sortB]
  | cons b t ih => simp [sortB, mem_insertB, ih]

theorem length_insertB {le : α → α → Bool} {a : α} {l : List α} :
    (insertB le a l).length = l.length + 1 := by
  induction l with
  | nil => rfl
  | cons b t ih =>
    simp only [insertB]
    split
    · simp
    · simp [ih]

theorem length_sortB {le : α → α → Bool} {l : List α} :
    (sortB le l).length = l.length := by
  induction l with
  | nil => rfl
  | cons b t ih => simp [sortB, length_insertB, ih]

theorem filter_bool_partition (l : List Bool) :
    (l.filter (fun b => b)).length + (l.filter (fun b => !b)).length = l.length := by
  induction l with
  | nil => rfl
  | cons b t ih => cases b <;> simp [List.filter, ih] <;> omega

/-- What the shared pagination core returns on success: `next_page` flags a
full six-row fetch, the body is the first five fetched rows, and the entry
bounds are computed from the page and the body length. -/
theorem paginate_ok_spec (S : List α) (page : Int) (r : SearchResult α)
    (h0 : 0 ≤ page) (hok : paginateResult S page = .ok r) :
    r.next_page = (if (fetchRows S page.toNat).length = 6 then page + 1 else -1) ∧
    r.res = (fetchRows S page.toNat).take 5 ∧
    r.start_entry = page * 5 ∧
    r.end_entry = r.start_entry + r.res.length - 1 := by
  unfold paginateResult at hok
  rw [if_neg (by omega)] at hok
  simp only at hok
  split at hok
  · exact absurd hok (by simp)
  · have hr := (Except.ok.injEq _ _).mp hok
    subst hr
    have hlen : (fetchRows S page.toNat).length ≤ 6 := by
      unfold fetchRows
      simp [List.length_take]
    refine ⟨?_, rfl, rfl, rfl⟩
    by_cases h6 : (fetchRows S page.toNat).length = 6
    · rw [if_pos h6, if_pos (by omega)]
    · rw [if_neg h6, if_neg (by omega)]

/-- A positive page whose offset reaches past the matching rows is answered
with the out-of-bounds error. -/
theorem paginate_beyond (S : List α) (page : Int) (hp : 0 < page)
    (hge : S.length ≤ page.toNat * 5) :
    paginateResult S page = .error "Page out of bounds" := by
  unfold paginateResult
  rw [if_neg (by omega)]
  have hnil : fetchRows S page.toNat = [] := by
    unfold fetchRows
    rw [List.drop_eq_nil_of_le hge]
    rfl
  simp only [hnil]
  rw [if_pos ⟨rfl, hp⟩]

/-- A negative page is rejected immediately. -/
theorem paginate_neg (S : List α) (page : Int) (hp : page < 0) :
    paginateResult S page = .error "Page out of bounds" := by
  unfold paginateResult
  rw [if_pos hp]

/-- When the row count `N` is not a multiple of five, page `N / 5` holds the
last `N % 5` rows and no next page is flagged. -/
theorem paginate_remainder (S : List α) (hrem : S.length % 5 ≠ 0) :
    paginateResult S ((S.length / 5 : Nat) : Int) =
      .ok ⟨-1, ((S.length / 5 : Nat) : Int) * 5,
           ((S.length / 5 : Nat) : Int) * 5 + ((S.length % 5 : Nat) : Int) - 1,
           S.drop ((S.length / 5) * 5)⟩ := by
  have hdl : (S.drop ((S.length / 5) * 5)).length = S.length % 5 := by
    rw [List.length_drop]
    omega
  have hfetch : fetchRows S ((S.length / 5 : Nat) : Int).toNat = S.drop ((S.length / 5) * 5) := by
    unfold fetchRows
    rw [Int.toNat_natCast]
    exact List.take_of_length_le (by omega)
  have htk : (S.drop ((S.length / 5) * 5)).take 5 = S.drop ((S.length / 5) * 5) :=
    List.take_of_length_le (by omega)
  have hne6 : ¬ 6 ≤ (S.drop ((S.length / 5) * 5)).length := by
    rw [hdl]; omega
  have hguard : ¬ ((S.drop ((S.length / 5) * 5)).length = 0 ∧
      0 < ((S.length / 5 : Nat) : Int)) := by
    rw [hdl]
    intro h
    exact hrem h.1
  unfold paginateResult
  rw [if_neg (by omega)]
  simp only [hfetch, htk]
  rw [if_neg hne6, if_neg hguard, hdl]

/-- Rows of a returned page all come from the sorted matching rows. -/
theorem paginate_ok_mem (S : List α) (page : Int) (r : SearchResult α)
    (hok : paginateResult S page = .ok r) : ∀ x ∈ r.res, x ∈ S := by
  unfold paginateResult at hok
  split at hok
  · exact absurd hok (by simp)
  · simp only at hok
    split at hok
    · exact absurd hok (by simp)
    · have hr := (Except.ok.injEq _ _).mp hok
      subst hr
      intro x hx
      exact List.mem_of_mem_drop (List.mem_of_mem_take (List.mem_of_mem_take hx))

/-! ## C1 -/

/-- C1: For every goal-search or task-search request with page index P ≥ 0
that returns a page, the handler fetched the sorted matching rows with offset
P*5 and limit 6 (`fetchRows`); `next_page` is P+1 exactly when that fetch
returned 6 rows and -1 otherwise; the page body is the first 5 fetched rows;
`start_entry` is P*5 and `end_entry` is `start_entry` plus the number of
returned rows minus one. -/
theorem C1_search_pagination :
    (∀ (table : List GoalRow) (u : Nat) (name : String) (copt : complete_options)
       (P : Int) (sc : search_sort_options) (so : search_sort_order)
       (r : SearchResult GoalRow),
      0 ≤ P →
      search_goals table u name copt P sc so = .ok r →
      r.next_page
          = (if (fetchRows (goalsSorted table u name copt sc so) P.toNat).length = 6
             then P + 1 else -1) ∧
      r.res = (fetchRows (goalsSorted table u name copt sc so) P.toNat).take 5 ∧
      r.start_entry = P * 5 ∧
      r.end_entry = r.start_entry + r.res.length - 1) ∧
    (∀ (ts : List TaskRow) (gs : List GoalRow) (u : Nat) (name : String)
       (copt : complete_options) (gid : Option Int) (P : Int)
       (sc : search_sort_options) (so : search_sort_order)
       (r : SearchResult TaskJoined),
      0 ≤ P →
      search_tasks ts gs u name copt gid P sc so = .ok r →
      r.next_page
          = (if (fetchRows (tasksSorted ts gs u name copt gid sc so) P.toNat).length = 6
             then P + 1 else -1) ∧
      r.res = (fetchRows (tasksSorted ts gs u name copt gid sc so) P.toNat).take 5 ∧
      r.start_entry = P * 5 ∧
      r.end_entry = r.start_entry + r.res.length - 1) := by
  constructor
  · intro table u name copt P sc so r h0 hok
    exact paginate_ok_spec _ P r h0 hok
  · intro ts gs u name copt gid P sc so r h0 hok
    exact paginate_ok_spec _ P r h0 hok

def c1goal : GoalRow := ⟨1, 1, "run 5k", false, 3, none⟩

def c1task : TaskRow := ⟨1, 1, none, "t", none, false, 3, none, none⟩

def c1resG : SearchResult GoalRow := ⟨-1, 0, 0, [c1goal]⟩

def c1resT : SearchResult TaskJoined := ⟨-1, 0, 0, [⟨c1task, none⟩]⟩

theorem C1_search_pagination_witness :
    (c1resG.next_page = -1 ∧ c1resG.res = [c1goal] ∧ c1resG.start_entry = 0 ∧
      c1resG.end_entry = c1resG.start_entry + c1resG.res.length - 1) ∧
    (c1resT.next_page = -1 ∧ c1resT.res = [⟨c1task, none⟩] ∧ c1resT.start_entry = 0 ∧
      c1resT.end_entry = c1resT.start_entry + c1resT.res.length - 1) :=
  ⟨C1_search_pagination.1 [c1goal] 1 "" .both 0 .date_created .desc c1resG
      (by decide) (by decide),
   C1_search_pagination.2 [c1task] [] 1 "" .both none 0 .date_created .desc c1resT
      (by decide) (by decide)⟩

/-! ## C2 -/

def c2fiveGoals : List GoalRow :=
  [⟨1, 1, "a", false, 1, none⟩, ⟨2, 1, "b", false, 2, none⟩, ⟨3, 1, "c", false, 3, none⟩,
   ⟨4, 1, "d", false, 4, none⟩, ⟨5, 1, "e", false, 5, none⟩]

/-- C2 counterexample: with N = 5 matching rows (so N > 0 and ⌊N/5⌋ = 1),
requesting page 1 does not return the `N mod 5 = 0` remaining rows with
`next_page = -1`; the handler raises the out-of-bounds error instead. -/
theorem C2_counterexample_multiple_of_five :
    (goalsMatched c2fiveGoals 1 "" .both .date_created).length = 5 ∧
    search_goals c2fiveGoals 1 "" .both 1 .date_created .desc
      = .error "Page out of bounds" := by decide

/-- C2 (amended): for N matching rows, when N mod 5 ≠ 0 page ⌊N/5⌋ returns
the last N mod 5 rows with `next_page = -1`; when N is a multiple of five
page ⌊N/5⌋ is already out of bounds.  Every positive page whose offset
reaches past the matching rows errors, and a negative page is rejected —
for goal search and task search alike. -/
theorem C2_search_last_page :
    (∀ (table : List GoalRow) (u : Nat) (name : String) (copt : complete_options)
       (sc : search_sort_options) (so : search_sort_order),
      ((goalsMatched table u name copt sc).length % 5 ≠ 0 →
        search_goals table u name copt
            (((goalsMatched table u name copt sc).length / 5 : Nat) : Int) sc so
          = .ok ⟨-1,
              (((goalsMatched table u name copt sc).length / 5 : Nat) : Int) * 5,
              (((goalsMatched table u name copt sc).length / 5 : Nat) : Int) * 5 +
                (((goalsMatched table u name copt sc).length % 5 : Nat) : Int) - 1,
              (goalsSorted table u name copt sc so).drop
                (((goalsMatched table u name copt sc).length / 5) * 5)⟩) ∧
      (∀ P : Int, 0 < P → (goalsMatched table u name copt sc).length ≤ P.toNat * 5 →
        search_goals table u name copt P sc so = .error "Page out of bounds") ∧
      (∀ P : Int, P < 0 →
        search_goals table u name copt P sc so = .error "Page out of bounds")) ∧
    (∀ (ts : List TaskRow) (gs : List GoalRow) (u : Nat) (name : String)
       (copt : complete_options) (gid : Option Int)
       (sc : search_sort_options) (so : search_sort_order),
      ((tasksMatched ts gs u name copt gid sc).length % 5 ≠ 0 →
        search_tasks ts gs u name copt gid
            (((tasksMatched ts gs u name copt gid sc).length / 5 : Nat) : Int) sc so
          = .ok ⟨-1,
              (((tasksMatched ts gs u name copt gid sc).length / 5 : Nat) : Int) * 5,
              (((tasksMatched ts gs u name copt gid sc).length / 5 : Nat) : Int) * 5 +
                (((tasksMatched ts gs u name copt gid sc).length % 5 : Nat) : Int) - 1,
              (tasksSorted ts gs u name copt gid sc so).drop
                (((tasksMatched ts gs u name copt gid sc).length / 5) * 5)⟩) ∧
      (∀ P : Int, 0 < P → (tasksMatched ts gs u name copt gid sc).length ≤ P.toNat * 5 →
        search_tasks ts gs u name copt gid P sc so = .error "Page out of bounds") ∧
      (∀ P : Int, P < 0 →
        search_tasks ts gs u name copt gid P sc so = .error "Page out of bounds")) := by
  constructor
  · intro table u name copt sc so
    have hS : (goalsSorted table u name copt sc so).length
        = (goalsMatched table u name copt sc).length := length_sortB
    refine ⟨?_, ?_, ?_⟩
    · intro h
      show paginateResult (goalsSorted table u name copt sc so) _ = _
      rw [← hS] at h ⊢
      exact paginate_remainder _ h
    · intro P hp hge
      rw [← hS] at hge
      exact paginate_beyond _ P hp hge
    · intro P hp
      exact paginate_neg _ P hp
  · intro ts gs u name copt gid sc so
    have hS : (tasksSorted ts gs u name copt gid sc so).length
        = (tasksMatched ts gs u name copt gid sc).length := length_sortB
    refine ⟨?_, ?_, ?_⟩
    · intro h
      show paginateResult (tasksSorted ts gs u name copt gid sc so) _ = _
      rw [← hS] at h ⊢
      exact paginate_remainder _ h
    · intro P hp hge
      rw [← hS] at hge
      exact paginate_beyond _ P hp hge
    · intro P hp
      exact paginate_neg _ P hp

def c2oneGoal : GoalRow := ⟨9, 1, "w", false, 4, none⟩

theorem C2_search_last_page_witness :
    search_goals [c2oneGoal] 1 "" .both 0 .date_created .desc
      = .ok ⟨-1, 0, 0, [c2oneGoal]⟩ ∧
    search_goals c2fiveGoals 1 "" .both 2 .date_created .desc
      = .error "Page out of bounds" ∧
    search_goals c2fiveGoals 1 "" .both (-1) .date_created .desc
      = .error "Page out of bounds" ∧
    search_tasks [] [] 1 "" .both none 1 .date_created .desc
      = .error "Page out of bounds" :=
  ⟨(C2_search_last_page.1 [c2oneGoal] 1 "" .both .date_created .desc).1 (by decide),
   (C2_search_last_page.1 c2fiveGoals 1 "" .both .date_created .desc).2.1 2
      (by decide) (by decide),
   (C2_search_last_page.1 c2fiveGoals 1 "" .both .date_created .desc).2.2 (-1)
      (by decide),
   (C2_search_last_page.2 [] [] 1 "" .both none .date_created .desc).2.1 1
      (by decide) (by decide)⟩

/-! ## C3

`search_goals` orders by the goal's own timestamp columns, but
`search_tasks` orders by `db.goals.c.date_created` /
`db.goals.c.date_completed` (`tasks.py` lines 277, 280) — the columns of the
left-joined *goals* table — so a task search is sorted by the linked goal's
timestamps, not the task's own. -/

def c3goal1 : GoalRow := ⟨1, 1, "g1", false, 10, none⟩

def c3goal2 : GoalRow := ⟨2, 1, "g2", false, 0, none⟩

def c3taskA : TaskRow := ⟨1, 1, some 1, "a", none, false, 0, none, none⟩

def c3taskB : TaskRow := ⟨2, 1, some 2, "b", none, false, 5, none, none⟩

/-- C3: task A was created before task B (`date_created` 0 < 5), yet an
ascending `date_created` task search returns B before A, because B's linked
goal was created (day 0) before A's linked goal (day 10): the task search
orders by the joined goal's column.  A goal search over the same goals does
order by the goal's own `date_created`. -/
theorem C3_task_search_orders_by_goal_columns :
    search_tasks [c3taskA, c3taskB] [c3goal1, c3goal2] 1 "" .both none 0
        .date_created .asc
      = .ok ⟨-1, 0, 1, [⟨c3taskB, some c3goal2⟩, ⟨c3taskA, some c3goal1⟩]⟩ ∧
    c3taskA.date_created < c3taskB.date_created ∧
    search_goals [c3goal1, c3goal2] 1 "" .both 0 .date_created .asc
      = .ok ⟨-1, 0, 1, [c3goal2, c3goal1]⟩ := by decide

/-! ## C4 -/

/-- C4: whenever the sort column is the completion timestamp, every row of
the returned page — goal search or task search — has `complete = true`,
whatever completion filter the caller supplied. -/
theorem C4_completed_sort_narrows_filter :
    (∀ (table : List GoalRow) (u : Nat) (name : String) (copt : complete_options)
       (P : Int) (so : search_sort_order) (r : SearchResult GoalRow),
      search_goals table u name copt P .date_completed so = .ok r →
      ∀ g ∈ r.res, g.complete = true) ∧
    (∀ (ts : List TaskRow) (gs : List GoalRow) (u : Nat) (name : String)
       (copt : complete_options) (gid : Option Int) (P : Int)
       (so : search_sort_order) (r : SearchResult TaskJoined),
      search_tasks ts gs u name copt gid P .date_completed so = .ok r →
      ∀ j ∈ r.res, j.t.complete = true) := by
  constructor
  · intro table u name copt P so r hok g hg
    have hmem := paginate_ok_mem _ P r hok g hg
    have hfil := (List.mem_filter.mp (mem_sortB.mp hmem)).2
    have : completeCond (effectiveOpt .date_completed copt) g.complete = true := by
      simp only [goalPred, Bool.and_eq_true] at hfil
      exact hfil.2
    simpa [effectiveOpt, completeCond] using this
  · intro ts gs u name copt gid P so r hok j hj
    have hmem := paginate_ok_mem _ P r hok j hj
    have hfil := (List.mem_filter.mp (mem_sortB.mp hmem)).2
    have : completeCond (effectiveOpt .date_completed copt) j.t.complete = true := by
      simp only [taskPred, Bool.and_eq_true] at hfil
      exact hfil.1.2
    simpa [effectiveOpt, completeCond] using this

def c4goal : GoalRow := ⟨1, 1, "g", true, 0, some 3⟩

def c4task : TaskRow := ⟨1, 1, none, "t", none, true, 0, some 3, some 10⟩

theorem C4_completed_sort_narrows_filter_witness :
    c4goal.complete = true ∧ c4task.complete = true :=
  ⟨C4_completed_sort_narrows_filter.1 [c4goal] 1 "" .both 0 .desc
      ⟨-1, 0, 0, [c4goal]⟩ (by decide) c4goal (by decide),
   C4_completed_sort_narrows_filter.2 [c4task] [] 1 "" .both none 0 .desc
      ⟨-1, 0, 0, [⟨c4task, none⟩]⟩ (by decide) ⟨c4task, none⟩ (by decide)⟩

/-! ## C5 -/

/-- C5 counterexample: a create-task request with *both* `minutes_taken` and
`date_completed` provided is rejected (and nothing is inserted) when the
`complete` flag is false — its default — so "accepted past this validation
when both are provided" fails as stated. -/
theorem C5_counterexample_both_provided_rejected :
    create_task [] 1 "t" none none false (some "2023-01-04") (some 30) 1 0
      = ([], .error "Completed tasks require minutes_taken and date_completed") := by
  decide

/-- The completion-combination gate of `create_task` in both directions:
when its Boolean condition fails the request is answered with the
combination error and the table is unchanged; when it holds, whatever the
later branches (date validation, dedup, insert) return is never that
error. -/
theorem create_task_comboError_cases (table : List TaskRow) (u : Nat) (name : String)
    (descr : Option String) (gid : Option Nat) (complete : Bool)
    (dc : Option String) (mt : Option Int) (newId now : Nat) :
    (((complete && truthyOptInt mt && truthyOptStr dc) ||
      (!complete && !truthyOptInt mt && !truthyOptStr dc)) = false →
      create_task table u name descr gid complete dc mt newId now
        = (table, .error "Completed tasks require minutes_taken and date_completed")) ∧
    (((complete && truthyOptInt mt && truthyOptStr dc) ||
      (!complete && !truthyOptInt mt && !truthyOptStr dc)) = true →
      (create_task table u name descr gid complete dc mt newId now).2
        ≠ .error "Completed tasks require minutes_taken and date_completed") := by
  constructor
  · intro hf
    unfold create_task
    rw [if_pos (by simp [hf])]
  · intro ht hc
    unfold create_task at hc
    rw [if_neg (by simp [ht])] at hc
    split at hc
    · simp at hc
    · dsimp only at hc
      split at hc
      · simp at hc
      · simp at hc

/-- C5 (amended): a create-task request is rejected with the
completion-combination error — and nothing is inserted — exactly when it is
not the case that `complete` is true with both `minutes_taken` and
`date_completed` provided (truthy), nor `complete` false with neither
provided.  In particular exactly-one-provided is always rejected, as are
both-provided with `complete = false` and neither-provided with
`complete = true`. -/
theorem C5_create_task_completion_validation :
    ∀ (table : List TaskRow) (u : Nat) (name : String) (descr : Option String)
      (gid : Option Nat) (complete : Bool) (dc : Option String) (mt : Option Int)
      (newId now : Nat),
      ((create_task table u name descr gid complete dc mt newId now).2
          = .error "Completed tasks require minutes_taken and date_completed"
        ↔ ¬((complete = true ∧ truthyOptInt mt = true ∧ truthyOptStr dc = true) ∨
            (complete = false ∧ truthyOptInt mt = false ∧ truthyOptStr dc = false))) ∧
      (¬((complete = true ∧ truthyOptInt mt = true ∧ truthyOptStr dc = true) ∨
         (complete = false ∧ truthyOptInt mt = false ∧ truthyOptStr dc = false)) →
        create_task table u name descr gid complete dc mt newId now
          = (table, .error "Completed tasks require minutes_taken and date_completed")) := by
  intro table u name descr gid complete dc mt newId now
  have hcases := create_task_comboError_cases table u name descr gid complete dc mt newId now
  have hbool : ¬((complete = true ∧ truthyOptInt mt = true ∧ truthyOptStr dc = true) ∨
      (complete = false ∧ truthyOptInt mt = false ∧ truthyOptStr dc = false)) →
      ((complete && truthyOptInt mt && truthyOptStr dc) ||
       (!complete && !truthyOptInt mt && !truthyOptStr dc)) = false := by
    intro hn
    cases complete <;> cases hmt : truthyOptInt mt <;> cases hdc : truthyOptStr dc <;>
      simp_all
  refine ⟨⟨?_, ?_⟩, ?_⟩
  · intro hc habs
    rcases habs with ⟨h1, h2, h3⟩ | ⟨h1, h2, h3⟩
    · exact hcases.2 (by rw [h1, h2, h3]; decide) hc
    · exact hcases.2 (by rw [h1, h2, h3]; decide) hc
  · intro hn
    exact congrArg Prod.snd (hcases.1 (hbool hn))
  · intro hn
    exact hcases.1 (hbool hn)

theorem C5_create_task_completion_validation_witness :
    create_task [] 1 "t" none none false (some "2023-01-04") (some 30) 1 0
      = ([], .error "Completed tasks require minutes_taken and date_completed") ∧
    create_task [] 1 "t" none none true none none 1 0
      = ([], .error "Completed tasks require minutes_taken and date_completed") ∧
    create_task [] 1 "t" none none true none (some 30) 1 0
      = ([], .error "Completed tasks require minutes_taken and date_completed") ∧
    (create_task [] 1 "t" none none true (some "2023-01-04") (some 30) 1 0).2
      ≠ .error "Completed tasks require minutes_taken and date_completed" :=
  ⟨(C5_create_task_completion_validation [] 1 "t" none none false (some "2023-01-04")
      (some 30) 1 0).2 (by decide),
   (C5_create_task_completion_validation [] 1 "t" none none true none none 1 0).2
      (by decide),
   (C5_create_task_completion_validation [] 1 "t" none none true none (some 30) 1 0).2
      (by decide),
   fun h => absurd
      ((C5_create_task_completion_validation [] 1 "t" none none true (some "2023-01-04")
          (some 30) 1 0).1.mp h)
      (by decide)⟩

/-! ## C6 -/

/-- C6: `create_goal` inserts a row exactly when no goal with the same
`(user, name)` pair exists; starting from a table without the pair, a create
followed by an identical create leaves exactly one row with that pair and the
second create reports the conflict without inserting. -/
theorem C6_create_goal_duplicate_conflict :
    ∀ (table : List GoalRow) (u : Nat) (n : String) (id1 id2 now1 now2 : Nat),
      (table.any (goalPairPred u n) = true →
        create_goal table u n id1 now1 = (table, .error "Task Already Created")) ∧
      (table.any (goalPairPred u n) = false →
        create_goal table u n id1 now1
          = (table ++ [⟨id1, u, n, false, now1, none⟩], .ok id1)) ∧
      (table.any (goalPairPred u n) = false →
        ((create_goal (create_goal table u n id1 now1).1 u n id2 now2).1.filter
            (goalPairPred u n)).length = 1 ∧
        (create_goal (create_goal table u n id1 now1).1 u n id2 now2).2
          = .error "Task Already Created") := by
  intro table u n id1 id2 now1 now2
  have hrow : goalPairPred u n ⟨id1, u, n, false, now1, none⟩ = true := by
    simp [goalPairPred]
  refine ⟨?_, ?_, ?_⟩
  · intro h
    unfold create_goal
    rw [if_pos h]
  · intro h
    unfold create_goal
    rw [if_neg (by simp [h])]
  · intro h
    have h1 : create_goal table u n id1 now1
        = (table ++ [⟨id1, u, n, false, now1, none⟩], .ok id1) := by
      unfold create_goal
      rw [if_neg (by simp [h])]
    rw [h1]
    have h2 : (table ++ [(⟨id1, u, n, false, now1, none⟩ : GoalRow)]).any
        (goalPairPred u n) = true := by
      rw [List.any_append]
      simp [hrow]
    have h3 : create_goal (table ++ [(⟨id1, u, n, false, now1, none⟩ : GoalRow)]) u n
        id2 now2 = (table ++ [⟨id1, u, n, false, now1, none⟩],
          .error "Task Already Created") := by
      unfold create_goal
      rw [if_pos h2]
    rw [h3]
    have h4 : table.filter (goalPairPred u n) = [] :=
      List.filter_eq_nil_iff.mpr (by
        intro a ha hpa
        have := List.any_eq_true.mpr ⟨a, ha, hpa⟩
        rw [h] at this
        cases this)
    refine ⟨?_, rfl⟩
    rw [List.filter_append, h4]
    simp [hrow]

theorem C6_create_goal_duplicate_conflict_witness :
    create_goal ([] : List GoalRow) 1 "run 5k" 1 0
      = ([⟨1, 1, "run 5k", false, 0, none⟩], .ok 1) ∧
    ((create_goal (create_goal ([] : List GoalRow) 1 "run 5k" 1 0).1 1 "run 5k" 2 7).1.filter
        (goalPairPred 1 "run 5k")).length = 1 ∧
    (create_goal (create_goal ([] : List GoalRow) 1 "run 5k" 1 0).1 1 "run 5k" 2 7).2
      = .error "Task Already Created" :=
  ⟨(C6_create_goal_duplicate_conflict [] 1 "run 5k" 1 2 0 7).2.1 rfl,
   (C6_create_goal_duplicate_conflict [] 1 "run 5k" 1 2 0 7).2.2 rfl⟩

/-! ## C7 -/

theorem dayName_beq (a b : Nat) : (dayName a == dayName b) = (a % 7 == b % 7) := by
  have ha : a % 7 < 7 := Nat.mod_lt _ (by omega)
  have hb : b % 7 < 7 := Nat.mod_lt _ (by omega)
  unfold dayName
  interval_cases h1 : a % 7 <;> interval_cases h2 : b % 7 <;> rfl

/-- The join condition of the weekday report counts a completed task of the
user whenever the *weekday* of its completion date matches — with no
constraint tying the completion date to the current week. -/
theorem dayJoinCond_eq (u : Nat) (gid : Option Nat) (day : Nat) (t : TaskRow) :
    dayJoinCond u gid day t =
      (t.complete && t.user == u &&
       (match gid with
        | none => true
        | some g => t.goal == some g) &&
       (match t.date_completed with
        | some dc => dc % 7 == day % 7
        | none => false)) := by
  unfold dayJoinCond
  cases t.date_completed with
  | none => simp
  | some dc =>
    dsimp only
    rw [dayName_beq]
    cases dc % 7 == day % 7 <;> simp

def c7mondayTask : TaskRow := ⟨1, 1, none, "t", none, true, 0, some 0, some 5⟩

/-- C7 counterexample: with the current week starting at day 7 (a Monday),
the user's only completed task was completed on day 0 — the Monday of a
*previous* week, outside the current week [7, 14) — yet the report counts it
in the Monday bucket, because the SQL joins on the weekday name alone. -/
theorem C7_counterexample_prev_week_counted :
    evaluate_days [c7mondayTask] 1 none 7
      = [("Monday   ", 1), ("Tuesday  ", 0), ("Wednesday", 0), ("Thursday ", 0),
         ("Friday   ", 0), ("Saturday ", 0), ("Sunday   ", 0)] ∧
    c7mondayTask.date_completed = some 0 ∧
    ¬ (7 ≤ 0 ∧ 0 < 14) := by decide

/-- C7 (amended): for each of the 7 days of the current calendar week, the
report returns the weekday name and the count of the user's completed tasks
(matching the optional goal filter) whose completion date falls on that
*weekday* — in any week, not only the current one. -/
theorem C7_evaluate_days_counts_by_weekday :
    ∀ (table : List TaskRow) (u : Nat) (gid : Option Nat) (ws i : Nat), i < 7 →
      (evaluate_days table u gid ws).getD i ("", 0)
        = (dayName (ws + i),
           (table.filter (fun t =>
              t.complete && t.user == u &&
              (match gid with
               | none => true
               | some g => t.goal == some g) &&
              (match t.date_completed with
               | some dc => dc % 7 == (ws + i) % 7
               | none => false))).length) := by
  intro table u gid ws i hi
  have key : ∀ d : Nat,
      (table.filter (dayJoinCond u gid d)).length
        = (table.filter (fun t =>
            t.complete && t.user == u &&
            (match gid with
             | none => true
             | some g => t.goal == some g) &&
            (match t.date_completed with
             | some dc => dc % 7 == d % 7
             | none => false))).length := by
    intro d
    exact congrArg List.length
      (List.filter_congr (fun t _ => dayJoinCond_eq u gid d t))
  interval_cases i <;> exact congrArg (Prod.mk (dayName _)) (key _)

theorem C7_evaluate_days_counts_by_weekday_witness :
    (evaluate_days [c7mondayTask] 1 none 7).getD 0 ("", 0) = ("Monday   ", 1) :=
  C7_evaluate_days_counts_by_weekday [c7mondayTask] 1 none 7 0 (by decide)

/-! ## C8 -/

/-- C8: the application dispatches every `users` and `tasks` route (all of
which carry the API-key dependency), but no `/goals/*` path is dispatched at
all — `goals.router` is never included by `server.py` — so the documented
goal routes, `/goals/search/` among them, are unreachable. -/
theorem C8_goals_router_not_mounted :
    dispatched "GET" "/goals/search/" = false ∧
    dispatched "POST" "/goals/add" = false ∧
    goalsRoutes.all (fun r => !(appRoutes.any (fun a => a.path == r.path))) = true ∧
    usersRoutes.all (fun r => dispatched r.method r.path) = true ∧
    tasksRoutes.all (fun r => dispatched r.method r.path) = true ∧
    (usersRoutes ++ tasksRoutes).all (fun r => r.requiresApiKey) = true := by decide

/-! ## C9 -/

/-- The updated table produced by `complete_goal`. -/
theorem complete_goal_fst (table : List GoalRow) (u gid now : Nat) :
    (complete_goal table u gid now).1
      = table.map (fun g =>
          if goalIdPred u gid g then
            { g with complete := true, date_completed := some now }
          else g) := by
  unfold complete_goal
  split <;> rfl

/-- C9: every goal operation preserves the invariant that `date_completed`
is set exactly when `complete` is true — `create_goal` appends a row with
`complete = false` and no completion date, `complete_goal` sets the flag and
the timestamp together on the matched rows, and `delete_goal` only removes
rows. -/
theorem C9_goal_completion_invariant :
    ∀ (table : List GoalRow) (u : Nat) (n : String) (gid newId now : Nat),
      (∀ g ∈ table, g.date_completed.isSome = g.complete) →
      (∀ g ∈ (create_goal table u n newId now).1,
        g.date_completed.isSome = g.complete) ∧
      ((create_goal table u n newId now).2 = .ok newId →
        (create_goal table u n newId now).1
          = table ++ [⟨newId, u, n, false, now, none⟩]) ∧
      (∀ g ∈ (complete_goal table u gid now).1,
        g.date_completed.isSome = g.complete) ∧
      (∀ g ∈ (complete_goal table u gid now).1, goalIdPred u gid g = true →
        g.complete = true ∧ g.date_completed = some now) ∧
      (∀ g ∈ (delete_goal table u gid).1, g.date_completed.isSome = g.complete) := by
  intro table u n gid newId now hinv
  refine ⟨?_, ?_, ?_, ?_, ?_⟩
  · unfold create_goal
    split
    · exact hinv
    · intro g hg
      rcases List.mem_append.mp hg with h | h
      · exact hinv g h
      · have hgr : g = ⟨newId, u, n, false, now, none⟩ := by simpa using h
        subst hgr
        rfl
  · unfold create_goal
    split
    · intro h
      exact absurd h (by simp)
    · intro _
      rfl
  · intro g hg
    rw [complete_goal_fst] at hg
    rcases List.mem_map.mp hg with ⟨x, hx, hfx⟩
    by_cases hp : goalIdPred u gid x = true
    · rw [if_pos hp] at hfx
      subst hfx
      rfl
    · rw [if_neg hp] at hfx
      subst hfx
      exact hinv x hx
  · intro g hg hm
    rw [complete_goal_fst] at hg
    rcases List.mem_map.mp hg with ⟨x, hx, hfx⟩
    by_cases hp : goalIdPred u gid x = true
    · rw [if_pos hp] at hfx
      subst hfx
      exact ⟨rfl, rfl⟩
    · rw [if_neg hp] at hfx
      subst hfx
      exact absurd hm hp
  · intro g hg
    unfold delete_goal at hg
    split at hg
    · exact hinv g hg
    · exact hinv g (List.mem_of_mem_filter hg)

def c9goal : GoalRow := ⟨1, 1, "g", false, 0, none⟩

def c9completed : GoalRow := ⟨1, 1, "g", true, 0, some 5⟩

theorem C9_goal_completion_invariant_witness :
    (create_goal [c9goal] 1 "g2" 2 5).1 = [c9goal] ++ [⟨2, 1, "g2", false, 5, none⟩] ∧
    (c9completed.complete = true ∧ c9completed.date_completed = some 5) :=
  ⟨(C9_goal_completion_invariant [c9goal] 1 "g2" 1 2 5 (by decide)).2.1 (by decide),
   (C9_goal_completion_invariant [c9goal] 1 "g2" 1 2 5 (by decide)).2.2.2.1
      c9completed (by decide) (by decide)⟩

/-! ## C10 -/

def isOkB {ε β : Type} : Except ε β → Bool
  | .ok _ => true
  | .error _ => false

/-- The aggregate row in canonical form: incomplete count is the total minus
the complete count, and the total is the number of the user's rows. -/
theorem countAgg_fields (flags : List Bool) :
    countAgg flags
      = ⟨(flags.filter (fun b => b)).length,
         flags.length - (flags.filter (fun b => b)).length,
         flags.length,
         if flags.length = 0 then none
           else some (roundPct (flags.filter (fun b => b)).length flags.length),
         if flags.length = 0 then none
           else some (roundPct (flags.length - (flags.filter (fun b => b)).length)
             flags.length)⟩ := by
  have hpart := filter_bool_partition flags
  have hle : (flags.filter (fun b => b)).length ≤ flags.length :=
    List.length_filter_le _ _
  have hic : (flags.filter (fun b => !b)).length
      = flags.length - (flags.filter (fun b => b)).length := by omega
  unfold countAgg
  dsimp only
  rw [hic, Nat.add_sub_cancel' hle]

/-- C10: both count endpoints always answer with the single aggregate row —
the not-found branches are unreachable — whose total is the number of the
user's rows; a user without rows gets counts 0, total 0 and null
percentages, and whenever rows exist the percentages are the rounded
(two-decimal, as integer hundredths of a percent) shares. -/
theorem C10_count_endpoints_single_row :
    ∀ (gtable : List GoalRow) (ttable : List TaskRow) (u : Nat),
      (isOkB (total_goals gtable u) = true ∧ isOkB (total_tasks ttable u) = true) ∧
      ((gtable.filter (fun g => g.user == u)).length = 0 →
        total_goals gtable u = .ok ⟨0, 0, 0, none, none⟩) ∧
      ((ttable.filter (fun t => t.user == u)).length = 0 →
        total_tasks ttable u = .ok ⟨0, 0, 0, none, none⟩) ∧
      (∀ r, total_goals gtable u = .ok r →
        r.total = r.complete_count + r.incomplete_count ∧
        r.total = (gtable.filter (fun g => g.user == u)).length ∧
        (0 < r.total →
          r.percent_complete = some (roundPct r.complete_count r.total) ∧
          r.percent_incomplete = some (roundPct r.incomplete_count r.total)) ∧
        (r.total = 0 → r.percent_complete = none ∧ r.percent_incomplete = none)) ∧
      (∀ r, total_tasks ttable u = .ok r →
        r.total = r.complete_count + r.incomplete_count ∧
        r.total = (ttable.filter (fun t => t.user == u)).length ∧
        (0 < r.total →
          r.percent_complete = some (roundPct r.complete_count r.total) ∧
          r.percent_incomplete = some (roundPct r.incomplete_count r.total)) ∧
        (r.total = 0 → r.percent_complete = none ∧ r.percent_incomplete = none)) := by
  intro gtable ttable u
  have hg : total_goals gtable u
      = .ok (countAgg ((gtable.filter (fun g => g.user == u)).map
          (fun g => g.complete))) := rfl
  have ht : total_tasks ttable u
      = .ok (countAgg ((ttable.filter (fun t => t.user == u)).map
          (fun t => t.complete))) := rfl
  refine ⟨⟨by rw [hg]; rfl, by rw [ht]; rfl⟩, ?_, ?_, ?_, ?_⟩
  · intro h0
    have hnil : gtable.filter (fun g => g.user == u) = [] := List.length_eq_zero.mp h0
    rw [hg, hnil]
    rfl
  · intro h0
    have hnil : ttable.filter (fun t => t.user == u) = [] := List.length_eq_zero.mp h0
    rw [ht, hnil]
    rfl
  · intro r hr
    rw [hg] at hr
    have hr2 := (Except.ok.injEq _ _).mp hr
    subst hr2
    rw [countAgg_fields]
    simp only [List.length_map]
    have hle := List.length_filter_le (fun b => b)
      ((gtable.filter (fun g => g.user == u)).map (fun g => g.complete))
    simp only [List.length_map] at hle
    refine ⟨by omega, trivial, ?_, ?_⟩
    · intro hpos
      rw [if_neg (by omega), if_neg (by omega)]
      exact ⟨rfl, rfl⟩
    · intro h0
      rw [if_pos h0, if_pos h0]
      exact ⟨rfl, rfl⟩
  · intro r hr
    rw [ht] at hr
    have hr2 := (Except.ok.injEq _ _).mp hr
    subst hr2
    rw [countAgg_fields]
    simp only [List.length_map]
    have hle := List.length_filter_le (fun b => b)
      ((ttable.filter (fun t => t.user == u)).map (fun t => t.complete))
    simp only [List.length_map] at hle
    refine ⟨by omega, trivial, ?_, ?_⟩
    · intro hpos
      rw [if_neg (by omega), if_neg (by omega)]
      exact ⟨rfl, rfl⟩
    · intro h0
      rw [if_pos h0, if_pos h0]
      exact ⟨rfl, rfl⟩

def c10goal : GoalRow := ⟨1, 1, "g", true, 0, some 2⟩

def c10res : CountResult := ⟨1, 0, 1, some 10000, some 0⟩

theorem C10_count_endpoints_single_row_witness :
    total_goals ([] : List GoalRow) 1 = .ok ⟨0, 0, 0, none, none⟩ ∧
    total_tasks ([] : List TaskRow) 3 = .ok ⟨0, 0, 0, none, none⟩ ∧
    (c10res.total = c10res.complete_count + c10res.incomplete_count ∧
      c10res.total = 1) :=
  ⟨(C10_count_endpoints_single_row [] [] 1).2.1 rfl,
   (C10_count_endpoints_single_row [] [] 3).2.2.1 rfl,
   ((C10_count_endpoints_single_row [c10goal] [] 1).2.2.2.1 c10res rfl).1,
   ((C10_count_endpoints_single_row [c10goal] [] 1).2.2.2.1 c10res rfl).2.1⟩

end GetItDone
